import Mathlib

/-
Verification of the Student Academic Risk Prediction backend
(`backend/schemas.py`, `backend/model_loader.py`, `backend/main.py`).

The backend is a pure request/response transform: pydantic validates a
seven-field numeric record, a pre-fitted scaler and two pre-trained
classifiers (loaded once at startup into module-level globals) are applied,
and two explanation strings are built from threshold comparisons on the raw
inputs. Floats are embedded as rationals, integer fields as integers, and
the three opaque serialized artifacts as black-box functions bundled in a
structure.
-/

namespace SARP

/-- The seven-field input record of `schemas.StudentData`. Python floats are
embedded as rationals and the integer fields as integers. -/
structure StudentData where
  attendance : ℚ
  study_hours : ℚ
  assignments_completed : ℤ
  quiz_score : ℚ
  midterm_score : ℚ
  internet_access : ℤ
  past_failures : ℤ
deriving DecidableEq, Repr

/-- Pydantic field validation of `schemas.StudentData`: the conjunction of the
per-field `ge`/`le` bounds declared on the seven `Field(...)` entries. -/
def validStudentData (s : StudentData) : Bool :=
  (0 ≤ s.attendance && s.attendance ≤ 100) &&
  (0 ≤ s.study_hours) &&
  (0 ≤ s.assignments_completed) &&
  (0 ≤ s.quiz_score && s.quiz_score ≤ 100) &&
  (0 ≤ s.midterm_score && s.midterm_score ≤ 100) &&
  (0 ≤ s.internet_access && s.internet_access ≤ 1) &&
  (0 ≤ s.past_failures)

/-- The pre-fitted scaler artifact (`scaler.joblib`): its `transform` method,
as a black-box function on one seven-feature row. -/
structure Scaler where
  transform : List ℚ → List ℚ

/-- The logistic-regression artifact (`logistic_model.joblib`): its `predict`
method returning the class label of the single row, and its `predict_proba`
method returning the `(class 0, class 1)` probability pair of the single row. -/
structure LogisticModel where
  predict : List ℚ → ℤ
  predict_proba : List ℚ → ℚ × ℚ

/-- The decision-tree artifact (`decision_tree_model.joblib`): its `predict`
method returning the class label of the single row. -/
structure DecisionTreeModel where
  predict : List ℚ → ℤ

/-- The module-level globals of `model_loader.py`: each starts as `None` and
holds the deserialized artifact after `load_models` ran. -/
structure LoaderState where
  logistic_model : Option LogisticModel
  decision_tree_model : Option DecisionTreeModel
  scaler : Option Scaler

/-- The initial global state of `model_loader.py` (all three globals `None`). -/
def initialState : LoaderState := ⟨none, none, none⟩

/-- The three serialized objects stored on disk under `backend/models/`, as
consumed by the three `joblib.load` calls of `load_models`. -/
structure Artifacts where
  logistic_model : LogisticModel
  decision_tree_model : DecisionTreeModel
  scaler : Scaler

/-- Embedding of `model_loader.load_models`: deserialize the three artifacts
and overwrite the three module-level globals with them. -/
def load_models (a : Artifacts) (_st : LoaderState) : LoaderState :=
  { logistic_model := some a.logistic_model
    decision_tree_model := some a.decision_tree_model
    scaler := some a.scaler }

/-- Embedding of `model_loader.get_logistic_model`. -/
def get_logistic_model (st : LoaderState) : Option LogisticModel :=
  st.logistic_model

/-- Embedding of `model_loader.get_decision_tree_model`. -/
def get_decision_tree_model (st : LoaderState) : Option DecisionTreeModel :=
  st.decision_tree_model

/-- Embedding of `model_loader.get_scaler`. -/
def get_scaler (st : LoaderState) : Option Scaler :=
  st.scaler

/-- Embedding of `main.startup_event`: the startup hook only calls
`load_models()`. -/
def startup_event (a : Artifacts) (st : LoaderState) : LoaderState :=
  load_models a st

/-- The feature row assembled by `main.predict` (lines 107-115): the seven
input fields in the fixed order attendance, study_hours,
assignments_completed, quiz_score, midterm_score, internet_access,
past_failures. -/
def input_data (s : StudentData) : List ℚ :=
  [s.attendance,
   s.study_hours,
   (s.assignments_completed : ℚ),
   s.quiz_score,
   s.midterm_score,
   (s.internet_access : ℚ),
   (s.past_failures : ℚ)]

/-- Rounding to the nearest integer with ties going to the even integer, the
rounding mode of Python's builtin `round`. -/
def roundHalfEven (q : ℚ) : ℤ :=
  if q - ⌊q⌋ < 1/2 then ⌊q⌋
  else if q - ⌊q⌋ > 1/2 then ⌊q⌋ + 1
  else if ⌊q⌋ % 2 = 0 then ⌊q⌋ else ⌊q⌋ + 1

/-- Python's `round(x, 2)`: round to two decimal places. -/
def round2 (q : ℚ) : ℚ :=
  (roundHalfEven (100 * q) : ℚ) / 100

/-- The `at risk` / `not at risk` phrase interpolated into both explanation
strings, chosen by comparing the prediction with 1. -/
def riskPhrase (pred : ℤ) : String :=
  if pred = 1 then "at risk" else "not at risk"

/-- The `explanation_parts` list of `main.predict` (lines 134-142): one
fragment appended per fired threshold, in program order. -/
def explanation_parts (s : StudentData) : List String :=
  (if s.midterm_score < 70 then ["low midterm score"] else []) ++
  (if s.quiz_score < 70 then ["low quiz score"] else []) ++
  (if s.study_hours < 10 then ["low study hours"] else []) ++
  (if s.attendance < 75 then ["low attendance"] else [])

/-- The sentence-building branch of `main.predict` (lines 145-152), as a
function of the local `explanation_parts` list: one fragment is attached
with `because of`, several are joined by a comma with `, and ` before the
last, and an empty fragment list falls back to the fixed sentence about
overall indicators. -/
def joinParts (parts : List String) (pred : ℤ) : String :=
  if parts.isEmpty then
    "The model predicted the student is " ++ riskPhrase pred ++
      " based on overall academic performance indicators."
  else if parts.length = 1 then
    "The model predicted the student is " ++ riskPhrase pred ++
      " because of " ++ parts.headI ++ "."
  else
    "The model predicted the student is " ++ riskPhrase pred ++
      " because of " ++ String.intercalate ", " parts.dropLast ++
      ", and " ++ parts.getLast! ++ "."

/-- The logistic-regression `explanation_text` of `main.predict`
(lines 134-152): the sentence built from the fired threshold fragments. -/
def explanation_text (s : StudentData) (pred : ℤ) : String :=
  joinParts (explanation_parts s) pred

/-- The `dt_explanation_parts` list of `main.predict` (lines 159-168): always
one past-failures fragment followed by one internet-access fragment. -/
def dt_explanation_parts (s : StudentData) : List String :=
  [if s.past_failures > 0 then toString s.past_failures ++ " past failure(s)"
   else "no past failures",
   if s.internet_access = 1 then "internet access available"
   else "no internet access"]

/-- The decision-tree `dt_explanation_text` of `main.predict` (line 171): the
two fragments joined by a comma. -/
def dt_explanation_text (s : StudentData) (pred : ℤ) : String :=
  "The model predicted the student is " ++ riskPhrase pred ++
    " because of " ++ String.intercalate ", " (dt_explanation_parts s) ++ "."

/-- The `logistic_regression` object of the success response of
`main.predict` (lines 175-179). -/
structure LogisticResult where
  prediction : ℤ
  risk_probability : ℚ
  explanation : String
deriving DecidableEq, Repr

/-- The `decision_tree` object of the success response of `main.predict`
(lines 180-183). -/
structure DecisionTreeResult where
  prediction : ℤ
  explanation : String
deriving DecidableEq, Repr

/-- The success response of `main.predict` (lines 174-184): exactly the two
top-level objects. -/
structure PredictResponse where
  logistic_regression : LogisticResult
  decision_tree : DecisionTreeResult
deriving DecidableEq, Repr

/-- A FastAPI `HTTPException` as observed by the client: status code and
detail string. -/
structure HttpError where
  status_code : ℤ
  detail : String
deriving DecidableEq, Repr

/-- Python's `str()` of a starlette `HTTPException`: the status code and the
detail joined by a colon. -/
def httpExceptionStr (e : HttpError) : String :=
  toString e.status_code ++ ": " ++ e.detail

/-- The detail of the dedicated not-loaded `HTTPException` of `main.predict`
(line 101). -/
def models_not_loaded_detail : String :=
  "Models not loaded. Please restart the application."

/-- The body of the `try` block of `main.predict` (lines 92-184): fetch the
three globals, raise the dedicated `HTTPException` when any is `None`,
otherwise assemble the row, scale it, run the logistic model (predict and
predict_proba) on the scaled row, run the decision tree on the raw row, and
build the two explanation strings. -/
def predict_body (st : LoaderState) (s : StudentData) :
    Except HttpError PredictResponse :=
  match get_logistic_model st, get_decision_tree_model st, get_scaler st with
  | some logistic_model, some decision_tree_model, some scaler =>
    let input_array := input_data s
    let scaled_input := scaler.transform input_array
    let logistic_prediction := logistic_model.predict scaled_input
    let logistic_proba := logistic_model.predict_proba scaled_input
    let risk_probability := round2 logistic_proba.2
    let lr_text := explanation_text s logistic_prediction
    let decision_tree_prediction := decision_tree_model.predict input_array
    let dt_text := dt_explanation_text s decision_tree_prediction
    Except.ok
      { logistic_regression :=
          { prediction := logistic_prediction
            risk_probability := risk_probability
            explanation := lr_text }
        decision_tree :=
          { prediction := decision_tree_prediction
            explanation := dt_text } }
  | _, _, _ => Except.error ⟨500, models_not_loaded_detail⟩

/-- `main.predict` with its catch-all `except Exception` clause
(lines 186-191): any exception escaping the `try` block, the dedicated
not-loaded `HTTPException` included, is re-raised as a 500 error whose detail
prefixes `Prediction failed: ` to `str(e)`. -/
def predict (st : LoaderState) (s : StudentData) :
    Except HttpError PredictResponse :=
  match predict_body st s with
  | Except.ok r => Except.ok r
  | Except.error e =>
      Except.error ⟨500, "Prediction failed: " ++ httpExceptionStr e⟩

/-- Outcome of a POST to `/predict` as seen by the client: a success body, an
`HTTPException` raised by the handler, or a pydantic validation rejection
(HTTP 422) issued before the handler runs. -/
inductive EndpointResult where
  | ok (r : PredictResponse)
  | httpError (e : HttpError)
  | validationError
deriving DecidableEq, Repr

/-- The full endpoint: FastAPI validates the body against
`schemas.StudentData` first and only a record passing every field bound
reaches `main.predict`. -/
def handle_predict_request (st : LoaderState) (s : StudentData) :
    EndpointResult :=
  if validStudentData s then
    match predict st s with
    | Except.ok r => EndpointResult.ok r
    | Except.error e => EndpointResult.httpError e
  else EndpointResult.validationError

/-- The application-level global state: the loader module's globals. -/
structure AppState where
  loader : LoaderState

/-- `main.predict` as a state transformer over the application globals: the
handler body contains no `global` statement and assigns no module attribute,
so the globals thread through unchanged. -/
def predict_with_state (g : AppState) (s : StudentData) :
    AppState × EndpointResult :=
  (g, handle_predict_request g.loader s)

/-- The sample record of `test_backend.test_predict_endpoint`. -/
def sampleStudent : StudentData :=
  { attendance := 85.5
    study_hours := 10
    assignments_completed := 8
    quiz_score := 75
    midterm_score := 80
    internet_access := 1
    past_failures := 0 }

/-- Modelled from the spec wording of the logistic explanation: the ordered
threshold rules, each pairing a fragment with the condition under which the
explanation mentions it. -/
def lr_rules (s : StudentData) : List (String × Bool) :=
  [("low midterm score", decide (s.midterm_score < 70)),
   ("low quiz score", decide (s.quiz_score < 70)),
   ("low study hours", decide (s.study_hours < 10)),
   ("low attendance", decide (s.attendance < 75))]

/-- Modelled from the spec wording: the fragment list is the rule table
filtered to the fired conditions, keeping the fixed order. -/
def lrPartsSpec (s : StudentData) : List String :=
  ((lr_rules s).filter (fun r => r.2)).map (fun r => r.1)

/-- Modelled from the spec wording of the logistic explanation sentence: no
fired fragment falls back to the overall-indicators sentence, one fragment is
attached directly, two or more are joined with `, and ` before the last. -/
def lrJoinSpec (parts : List String) (pred : ℤ) : String :=
  match parts with
  | [] => "The model predicted the student is " ++ riskPhrase pred ++
      " based on overall academic performance indicators."
  | [f] => "The model predicted the student is " ++ riskPhrase pred ++
      " because of " ++ f ++ "."
  | fs => "The model predicted the student is " ++ riskPhrase pred ++
      " because of " ++ String.intercalate ", " fs.dropLast ++
      ", and " ++ fs.getLast! ++ "."

/-- Modelled from the spec wording of the decision-tree explanation: exactly
one past-failures fragment (the count when positive, otherwise
`no past failures`) followed by exactly one internet-access fragment chosen
by comparing the flag with 1. -/
def dtExplanationSpec (s : StudentData) (pred : ℤ) : String :=
  "The model predicted the student is " ++ riskPhrase pred ++
    " because of " ++
    (if s.past_failures > 0 then toString s.past_failures ++ " past failure(s)"
     else "no past failures") ++ ", " ++
    (if s.internet_access = 1 then "internet access available"
     else "no internet access") ++ "."

/-- A scaler whose transform visibly changes the row (it discards it), used
to separate the raw row from its scaled copy. -/
def cScaler : Scaler := ⟨fun _ => []⟩

/-- A decision tree that detects whether it was handed the scaled (empty) or
the raw (seven-entry) row. -/
def cDT : DecisionTreeModel := ⟨fun v => if v.isEmpty then 1 else 0⟩

/-- A logistic model with constant outputs. -/
def cLM : LogisticModel := ⟨fun _ => 0, fun _ => (1, 0)⟩

/-- The artifact triple built from the three probe models above. -/
def cArtifacts : Artifacts := ⟨cLM, cDT, cScaler⟩

/-- A record whose only fired logistic threshold is the midterm one. -/
def lowMidtermStudent : StudentData :=
  { attendance := 90
    study_hours := 12
    assignments_completed := 5
    quiz_score := 80
    midterm_score := 60
    internet_access := 1
    past_failures := 0 }

/-- Joining a two-element list with a comma separator is plain concatenation. -/
lemma intercalate_pair (a b : String) :
    String.intercalate ", " [a, b] = a ++ ", " ++ b := rfl

/-- The sentence builder of the handler agrees with the spec-side join on
every fragment list. -/
lemma joinParts_eq_lrJoinSpec (l : List String) (p : ℤ) :
    joinParts l p = lrJoinSpec l p := by
  rcases l with _ | ⟨a, _ | ⟨b, t⟩⟩ <;> rfl

/-- The fragment list built by the handler agrees with the filtered rule
table of the spec. -/
lemma explanation_parts_eq_lrPartsSpec (s : StudentData) :
    explanation_parts s = lrPartsSpec s := by
  unfold explanation_parts lrPartsSpec lr_rules
  by_cases h1 : s.midterm_score < 70 <;> by_cases h2 : s.quiz_score < 70 <;>
    by_cases h3 : s.study_hours < 10 <;> by_cases h4 : s.attendance < 75 <;>
    simp [h1, h2, h3, h4]

/-- Claim C1, counterexample: with a scaler that visibly changes the row and
a decision tree that distinguishes the raw row from its scaled copy, the
response carries the decision-tree output on the raw row (0), which differs
from the output the tree gives on the scaled copy (1) — so the decision-tree
inference call is not invoked on the scaled copy, refuting the claim as
stated at the concrete sample record. -/
theorem dt_not_invoked_on_scaled_input :
    (predict (load_models cArtifacts initialState) sampleStudent).toOption.map
      (fun r => r.decision_tree.prediction) = some 0 ∧
    cDT.predict (cScaler.transform (input_data sampleStudent)) = 1 ∧
    (0 : ℤ) ≠ 1 := ⟨rfl, rfl, by decide⟩

/-- Claim C1, amended: for every valid request the scaling transform is
applied exactly once to the assembled seven-feature row, both logistic
inference calls (predict and predict_proba) receive that scaled copy, and
the decision-tree inference call receives the raw unscaled row. -/
theorem scaling_once_lr_on_scaled_dt_on_raw (a : Artifacts) (st : LoaderState)
    (s : StudentData) :
    predict (load_models a st) s = Except.ok
      { logistic_regression :=
          { prediction := a.logistic_model.predict (a.scaler.transform (input_data s))
            risk_probability :=
              round2 (a.logistic_model.predict_proba (a.scaler.transform (input_data s))).2
            explanation :=
              explanation_text s
                (a.logistic_model.predict (a.scaler.transform (input_data s))) }
        decision_tree :=
          { prediction := a.decision_tree_model.predict (input_data s)
            explanation :=
              dt_explanation_text s (a.decision_tree_model.predict (input_data s)) } } :=
  rfl

/-- Claim C2: the endpoint accepts a request exactly when each of the seven
fields satisfies its static bound — attendance in [0,100], study_hours
nonnegative, assignments_completed nonnegative, quiz_score in [0,100],
midterm_score in [0,100], internet_access in 0..1, past_failures
nonnegative — and whether a record is rejected by validation does not depend
on the loaded models or scaler, so a rejected record never reaches them. -/
theorem request_accepted_iff_all_bounds (st st' : LoaderState) (s : StudentData) :
    (handle_predict_request st s ≠ EndpointResult.validationError ↔
      ((0 ≤ s.attendance ∧ s.attendance ≤ 100) ∧ 0 ≤ s.study_hours ∧
       0 ≤ s.assignments_completed ∧ (0 ≤ s.quiz_score ∧ s.quiz_score ≤ 100) ∧
       (0 ≤ s.midterm_score ∧ s.midterm_score ≤ 100) ∧
       (0 ≤ s.internet_access ∧ s.internet_access ≤ 1) ∧ 0 ≤ s.past_failures)) ∧
    (handle_predict_request st s = EndpointResult.validationError ↔
      handle_predict_request st' s = EndpointResult.validationError) := by
  have hb : (validStudentData s = true) ↔
      ((0 ≤ s.attendance ∧ s.attendance ≤ 100) ∧ 0 ≤ s.study_hours ∧
       0 ≤ s.assignments_completed ∧ (0 ≤ s.quiz_score ∧ s.quiz_score ≤ 100) ∧
       (0 ≤ s.midterm_score ∧ s.midterm_score ≤ 100) ∧
       (0 ≤ s.internet_access ∧ s.internet_access ≤ 1) ∧ 0 ≤ s.past_failures) := by
    simp [validStudentData, and_assoc]
  by_cases h : validStudentData s = true
  · refine ⟨?_, ?_⟩
    · rw [← hb]
      simp only [handle_predict_request, h, if_true]
      cases predict st s <;> simp [h]
    · simp only [handle_predict_request, h, if_true]
      cases predict st s <;> cases predict st' s <;> simp
  · refine ⟨?_, ?_⟩
    · rw [← hb]
      simp [handle_predict_request, h]
    · simp [handle_predict_request, h]

/-- Claim C3: the feature row handed to the models is exactly the seven
input fields, each once, in the fixed order attendance, study_hours,
assignments_completed, quiz_score, midterm_score, internet_access,
past_failures, as a single seven-entry row. -/
theorem feature_vector_order (s : StudentData) :
    input_data s = [s.attendance, s.study_hours, (s.assignments_completed : ℚ),
      s.quiz_score, s.midterm_score, (s.internet_access : ℚ),
      (s.past_failures : ℚ)] ∧
    (input_data s).length = 7 := ⟨rfl, rfl⟩

/-- Claim C4: the logistic explanation equals the sentence prescribed by the
threshold rules (each fragment mentioned exactly when its raw-input threshold
fires, in the fixed order, with the comma-and join and the fallback
sentence), each fragment membership is equivalent to its threshold, and the
decision-tree explanation always carries exactly one past-failures fragment
followed by one internet-access fragment. -/
theorem explanations_follow_threshold_rules (s : StudentData) (lp dp : ℤ) :
    explanation_text s lp = lrJoinSpec (lrPartsSpec s) lp ∧
    (("low midterm score" ∈ explanation_parts s) ↔ s.midterm_score < 70) ∧
    (("low quiz score" ∈ explanation_parts s) ↔ s.quiz_score < 70) ∧
    (("low study hours" ∈ explanation_parts s) ↔ s.study_hours < 10) ∧
    (("low attendance" ∈ explanation_parts s) ↔ s.attendance < 75) ∧
    dt_explanation_text s dp = dtExplanationSpec s dp := by
  refine ⟨?_, ?_, ?_, ?_, ?_, ?_⟩
  · rw [explanation_text, explanation_parts_eq_lrPartsSpec, joinParts_eq_lrJoinSpec]
  · unfold explanation_parts
    by_cases h1 : s.midterm_score < 70 <;> by_cases h2 : s.quiz_score < 70 <;>
      by_cases h3 : s.study_hours < 10 <;> by_cases h4 : s.attendance < 75 <;>
      simp [h1, h2, h3, h4]
  · unfold explanation_parts
    by_cases h1 : s.midterm_score < 70 <;> by_cases h2 : s.quiz_score < 70 <;>
      by_cases h3 : s.study_hours < 10 <;> by_cases h4 : s.attendance < 75 <;>
      simp [h1, h2, h3, h4]
  · unfold explanation_parts
    by_cases h1 : s.midterm_score < 70 <;> by_cases h2 : s.quiz_score < 70 <;>
      by_cases h3 : s.study_hours < 10 <;> by_cases h4 : s.attendance < 75 <;>
      simp [h1, h2, h3, h4]
  · unfold explanation_parts
    by_cases h1 : s.midterm_score < 70 <;> by_cases h2 : s.quiz_score < 70 <;>
      by_cases h3 : s.study_hours < 10 <;> by_cases h4 : s.attendance < 75 <;>
      simp [h1, h2, h3, h4]
  · simp [dt_explanation_text, dtExplanationSpec, dt_explanation_parts,
      intercalate_pair, String.append_assoc]

/-- Claim C5: every successful prediction response is the fixed two-object
shape, the logistic object carrying the logistic prediction on the scaled
row, the class-1 probability rounded to two decimal places and the logistic
explanation, and the decision-tree object carrying the tree prediction and
the tree explanation. -/
theorem success_response_shape (a : Artifacts) (st : LoaderState) (s : StudentData) :
    ∃ r : PredictResponse,
      predict (load_models a st) s = Except.ok r ∧
      r.logistic_regression.prediction =
        a.logistic_model.predict (a.scaler.transform (input_data s)) ∧
      r.logistic_regression.risk_probability =
        round2 (a.logistic_model.predict_proba (a.scaler.transform (input_data s))).2 ∧
      r.logistic_regression.explanation =
        explanation_text s
          (a.logistic_model.predict (a.scaler.transform (input_data s))) ∧
      r.decision_tree.prediction = a.decision_tree_model.predict (input_data s) ∧
      r.decision_tree.explanation =
        dt_explanation_text s (a.decision_tree_model.predict (input_data s)) :=
  ⟨_, rfl, rfl, rfl, rfl, rfl, rfl⟩

/-- Claim C6: with a fixed loaded state, two invocations of the handler on
records whose seven fields agree produce identical results — the raw handler
outcome and the full endpoint outcome coincide, so predictions, risk
probability and explanation strings are character-for-character equal. -/
theorem predict_deterministic (st : LoaderState) (s s' : StudentData)
    (h : s.attendance = s'.attendance ∧ s.study_hours = s'.study_hours ∧
      s.assignments_completed = s'.assignments_completed ∧
      s.quiz_score = s'.quiz_score ∧ s.midterm_score = s'.midterm_score ∧
      s.internet_access = s'.internet_access ∧
      s.past_failures = s'.past_failures) :
    predict st s = predict st s' ∧
    handle_predict_request st s = handle_predict_request st s' := by
  have hs : s = s' := by
    obtain ⟨h1, h2, h3, h4, h5, h6, h7⟩ := h
    cases s; cases s'; simp_all
  subst hs; exact ⟨rfl, rfl⟩

/-- Claim C6, witness: the determinism theorem applied to the concrete
sample record under the concrete probe artifacts. -/
theorem predict_deterministic_witness :
    predict (load_models cArtifacts initialState) sampleStudent =
      predict (load_models cArtifacts initialState) sampleStudent ∧
    handle_predict_request (load_models cArtifacts initialState) sampleStudent =
      handle_predict_request (load_models cArtifacts initialState) sampleStudent :=
  predict_deterministic (load_models cArtifacts initialState) sampleStudent
    sampleStudent ⟨rfl, rfl, rfl, rfl, rfl, rfl, rfl⟩

/-- Claim C7: handling a request leaves the application globals untouched —
the state threaded through the handler comes back unchanged, each of the
three getters returns afterwards exactly what it returned before, and the
result is the pure function of the incoming state and record. -/
theorem predict_preserves_global_state (g : AppState) (s : StudentData) :
    (predict_with_state g s).1 = g ∧
    get_logistic_model (predict_with_state g s).1.loader =
      get_logistic_model g.loader ∧
    get_decision_tree_model (predict_with_state g s).1.loader =
      get_decision_tree_model g.loader ∧
    get_scaler (predict_with_state g s).1.loader = get_scaler g.loader ∧
    (predict_with_state g s).2 = handle_predict_request g.loader s :=
  ⟨rfl, rfl, rfl, rfl, rfl⟩

/-- Claim C8: the startup hook is exactly one run of the loader, and after a
successful load each of the three getters returns the corresponding
deserialized artifact, in particular none of them returns None. -/
theorem load_models_populates_getters (a : Artifacts) (st : LoaderState) :
    startup_event a st = load_models a st ∧
    get_logistic_model (load_models a st) = some a.logistic_model ∧
    get_decision_tree_model (load_models a st) = some a.decision_tree_model ∧
    get_scaler (load_models a st) = some a.scaler ∧
    get_logistic_model (load_models a st) ≠ none ∧
    get_decision_tree_model (load_models a st) ≠ none ∧
    get_scaler (load_models a st) ≠ none := by
  refine ⟨rfl, rfl, rfl, rfl, ?_, ?_, ?_⟩ <;>
    simp [load_models, get_logistic_model, get_decision_tree_model, get_scaler]

/-- Claim C9: when any getter returns None the handler produces the 500
error whose detail wraps the stringified not-loaded exception behind the
`Prediction failed: ` prefix — the client never sees the original detail
verbatim — and every error the handler can produce has status 500 and a
detail beginning with `Prediction failed: `. -/
theorem failures_wrapped_with_prediction_failed (st : LoaderState) (s : StudentData)
    (h : get_logistic_model st = none ∨ get_decision_tree_model st = none ∨
      get_scaler st = none) :
    predict st s = Except.error
      ⟨500, "Prediction failed: " ++ httpExceptionStr ⟨500, models_not_loaded_detail⟩⟩ ∧
    ("Prediction failed: " ++ httpExceptionStr ⟨500, models_not_loaded_detail⟩ : String) ≠
      models_not_loaded_detail ∧
    (∀ st2 s2 e, predict st2 s2 = Except.error e →
      e.status_code = 500 ∧ ∃ t, e.detail = "Prediction failed: " ++ t) := by
  refine ⟨?_, ?_, ?_⟩
  · obtain ⟨lm, dtm, sc⟩ := st
    rcases lm <;> rcases dtm <;> rcases sc <;>
      simp_all [predict, predict_body, get_logistic_model,
        get_decision_tree_model, get_scaler]
  · decide
  · intro st2 s2 e he
    unfold predict at he
    cases hb : predict_body st2 s2 with
    | ok r => rw [hb] at he; cases he
    | error e0 =>
        rw [hb] at he
        cases he
        exact ⟨rfl, ⟨httpExceptionStr e0, rfl⟩⟩

/-- Claim C9, witness: the wrapping theorem applied to the never-loaded
initial state and the concrete sample record. -/
theorem failures_wrapped_witness :
    predict initialState sampleStudent = Except.error
      ⟨500, "Prediction failed: " ++ httpExceptionStr ⟨500, models_not_loaded_detail⟩⟩ :=
  (failures_wrapped_with_prediction_failed initialState sampleStudent (Or.inl rfl)).1

/-- Claim C10: the logistic explanation decomposes as the fixed opening
followed by the risk phrase followed by a suffix that does not depend on the
prediction value, and with a logistic model predicting 0 the sentence
`not at risk because of low midterm score` is actually produced for a record
whose only fired threshold is the midterm one. -/
theorem explanation_fragments_independent_of_prediction (s : StudentData) :
    (∃ t : String, ∀ p : ℤ, explanation_text s p =
      "The model predicted the student is " ++ riskPhrase p ++ t) ∧
    (predict (load_models cArtifacts initialState) lowMidtermStudent).toOption.map
      (fun r => r.logistic_regression.explanation) =
      some "The model predicted the student is not at risk because of low midterm score." := by
  constructor
  · rcases hl : explanation_parts s with _ | ⟨a, _ | ⟨b, t⟩⟩
    · exact ⟨" based on overall academic performance indicators.", fun p => by
        simp [explanation_text, joinParts, hl, String.append_assoc]⟩
    · exact ⟨" because of " ++ a ++ ".", fun p => by
        simp [explanation_text, joinParts, hl, String.append_assoc]⟩
    · exact ⟨" because of " ++ String.intercalate ", " ((a :: b :: t).dropLast) ++
        ", and " ++ (a :: b :: t).getLast! ++ ".", fun p => by
        simp [explanation_text, joinParts, hl, String.append_assoc]⟩
  · rfl

end SARP
